import Mathlib

/-!
Verification of the py2slack notification utility: a shallow embedding of
the configuration resolution in auth.py (load_from_dotenv_file,
load_slack_config, initialize_slack_client) and of the notification layer
in notify.py (send_slack, format_duration, slack_notify), with theorems
settling the specification claims about them. Ambient effects (process
environment, filesystem, remote Slack API, clock) are passed in explicitly
as world records; Python string truthiness and exception flow are modelled
directly.
-/

namespace Py2Slack

/-- Python truthiness of an optional string: None and the empty string are
falsy, every other string is truthy (models `if value:` on `os.getenv`
results and on the optional `channel` argument). -/
def truthy : Option String → Bool
  | some s => !s.isEmpty
  | none => false

/-- The configuration map built by auth.py: the two recognized keys,
`oauth_token` and `default_channel`; `none` means the key is absent from
the dict. -/
structure SlackConfig where
  oauth_token : Option String
  default_channel : Option String
deriving DecidableEq

/-- Outcome of `open(CONFIG_FILE)` followed by `json.load` in
load_slack_config: a parsed object (its two recognized fields, `none` when
the key is not in the JSON object), a `json.JSONDecodeError`, or any other
exception while opening or reading (e.g. `FileNotFoundError`). -/
inductive JsonResult where
  | parsed (cfg : SlackConfig)
  | decodeError
  | readError (msg : String)
deriving DecidableEq

/-- The ambient state load_slack_config reads: the two environment
variables, existence of the two files, availability of the python-dotenv
library, what `os.getenv` returns for the two variables after
`load_dotenv(ENV_FILE)` ran, whether that load raised, and the result of
reading the JSON file. -/
structure ConfigWorld where
  envOauth : Option String
  envChannel : Option String
  envFileExists : Bool
  dotenvAvailable : Bool
  dotenvLoadFails : Bool
  dotenvOauth : Option String
  dotenvChannel : Option String
  configFileExists : Bool
  jsonRead : JsonResult

/-- auth.py load_from_dotenv_file: returns the empty config when the dotenv
library is unavailable or an exception occurs, otherwise the truthy values
of the two variables as seen after `load_dotenv(ENV_FILE)`. -/
def load_from_dotenv_file (w : ConfigWorld) : SlackConfig :=
  if w.dotenvAvailable then
    if w.dotenvLoadFails then ⟨none, none⟩
    else
      ⟨(if truthy w.dotenvOauth then w.dotenvOauth else none),
       (if truthy w.dotenvChannel then w.dotenvChannel else none)⟩
  else ⟨none, none⟩

/-- Step 1 of auth.py load_slack_config: populate the config from the
process environment variables, keeping only truthy values. -/
def envStep (w : ConfigWorld) : SlackConfig :=
  ⟨(if truthy w.envOauth then w.envOauth else none),
   (if truthy w.envChannel then w.envChannel else none)⟩

/-- Whether the set `{oauth_token, default_channel} - config.keys()` is
non-empty for a config map. -/
def missingAny (c : SlackConfig) : Bool :=
  c.oauth_token.isNone || c.default_channel.isNone

/-- One key of the loop `for key in missing: if key in src: config[key] =
src[key]`: a key already set is kept, a missing one is taken from the
source (which may itself lack it). -/
def fillKey : Option String → Option String → Option String
  | some v, _ => some v
  | none, src => src

/-- The fill-only-if-missing merge performed by steps 2 and 3 of
load_slack_config. -/
def fillMissing (c src : SlackConfig) : SlackConfig :=
  ⟨fillKey c.oauth_token src.oauth_token,
   fillKey c.default_channel src.default_channel⟩

/-- The condition `if missing or os.path.exists(ENV_FILE)` guarding step 2
of load_slack_config: whether load_from_dotenv_file is called at all. -/
def dotenvConsulted (w : ConfigWorld) : Bool :=
  missingAny (envStep w) || w.envFileExists

/-- The config after step 2 of load_slack_config: when consulted, the
dotenv source fills only keys still missing after the environment step. -/
def dotenvStage (w : ConfigWorld) : SlackConfig :=
  if dotenvConsulted w then fillMissing (envStep w) (load_from_dotenv_file w)
  else envStep w

/-- The condition `if missing or os.path.exists(CONFIG_FILE)` guarding
step 3 of load_slack_config. -/
def jsonConsulted (w : ConfigWorld) : Bool :=
  missingAny (dotenvStage w) || w.configFileExists

/-- What the JSON source contributes when read: the parsed object, or
nothing when reading or decoding raised (both handlers only print a
warning and keep the config gathered so far). -/
def jsonView (w : ConfigWorld) : SlackConfig :=
  match w.jsonRead with
  | JsonResult.parsed j => j
  | _ => ⟨none, none⟩

/-- auth.py load_slack_config: environment step, then the dotenv source
under fill-only-if-missing, then the JSON source under the same rule; a
JSON read or decode error contributes nothing. The final missing-key
warnings only print and do not affect the returned map. -/
def load_slack_config (w : ConfigWorld) : SlackConfig :=
  if jsonConsulted w then
    match w.jsonRead with
    | JsonResult.parsed j => fillMissing (dotenvStage w) j
    | _ => dotenvStage w
  else dotenvStage w

/-- The opaque client handle: slack_sdk.WebClient bound to a token. -/
structure WebClient where
  token : String
deriving DecidableEq

/-- Outcome of one remote Slack API call: normal return, a raised
`SlackApiError` (carrying the error detail used by the handlers), or any
other raised exception. -/
inductive ApiOutcome where
  | ok
  | apiError (detail : String)
  | exn (msg : String)
deriving DecidableEq

/-- The ambient state initialize_slack_client reads: the config world, the
availability of slack_sdk, and what `WebClient(token=t).auth_test()` does
for a given token. -/
structure InitWorld where
  cfg : ConfigWorld
  sdkImported : Bool
  authTest : String → ApiOutcome

/-- What initialize_slack_client produces: the pair it returns (client and
default channel), whether the remote liveness check was attempted, and the
diagnostics it printed. -/
structure InitResult where
  client : Option WebClient
  default_channel : Option String
  remoteAttempted : Bool
  logs : List String
deriving DecidableEq

/-- The warning printed by initialize_slack_client when the loaded config
has no usable token. -/
def missingTokenWarning : String :=
  "Warning: Missing 'oauth_token' in configuration. Slack functionality will be disabled."

/-- auth.py initialize_slack_client: returns `(None, None)` when slack_sdk
is unavailable; loads the config; returns `(None, None)` with a warning
when the token is absent or empty (`if not slack_token`); otherwise builds
the client and runs `auth_test()`, catching every exception from the check
and degrading to `(None, None)` with a diagnostic. -/
def initialize_slack_client (w : InitWorld) : InitResult :=
  if w.sdkImported then
    let config := load_slack_config w.cfg
    match config.oauth_token with
    | none => ⟨none, none, false, [missingTokenWarning]⟩
    | some t =>
      if t.isEmpty then ⟨none, none, false, [missingTokenWarning]⟩
      else
        match w.authTest t with
        | ApiOutcome.ok => ⟨some ⟨t⟩, config.default_channel, true, []⟩
        | ApiOutcome.apiError d =>
            ⟨none, none, true, ["Error initializing Slack client: " ++ d]⟩
        | ApiOutcome.exn m =>
            ⟨none, none, true, ["Error initializing Slack client: " ++ m]⟩
  else ⟨none, none, false, []⟩

/-- A remote API operation invoked by send_slack, with the arguments that
identify it: the channel actually passed (None is possible) and the
payload fields. -/
inductive RemoteOp where
  | postMessage (channel : Option String) (text : String)
  | uploadFile (channel : Option String) (filename : String) (title : String)
      (comment : String)
deriving DecidableEq

/-- A Python exception as send_slack's `try` block can raise one: a
`SlackApiError` or any other exception. -/
inductive PyExn where
  | slackApi (detail : String)
  | other (msg : String)
deriving DecidableEq

/-- The ambient state send_slack reads: the module-level CLIENT and
DEFAULT_CHANNEL, the filesystem (`os.path.exists`, `os.getcwd`, whether
`open(file, "rb")` raises), and the outcome of each remote call as a
function of its arguments. -/
structure SendWorld where
  client : Option WebClient
  defaultChannel : Option String
  fileExists : String → Bool
  cwd : String
  openFails : String → Option String
  postOutcome : Option String → String → ApiOutcome
  uploadOutcome : Option String → String → String → String → ApiOutcome

/-- The observable behavior of one send_slack call: the remote operations
invoked, in order, and the lines printed. -/
structure SendTrace where
  remote : List RemoteOp
  logs : List String
deriving DecidableEq

/-- os.path.basename for the forward-slash paths the upload branch uses. -/
def basename (p : String) : String := (p.splitOn "/").getLastD p

/-- How send_slack's `try` block can exit: reaching the final success
print, the early `return` of the missing-file branch, or an exception. -/
inductive BodyExit where
  | completed (ops : List RemoteOp) (logs : List String)
  | returnedEarly (ops : List RemoteOp) (logs : List String)
  | raised (ops : List RemoteOp) (logs : List String) (e : PyExn)

/-- The `try` block of send_slack: post the message when no file is given;
otherwise check the path, returning early with two warnings when it does
not exist, then open the file and upload it. A raised outcome records the
remote call that was attempted, if any. -/
def send_try (w : SendWorld) (text : String) (file : Option String)
    (used_channel : Option String) : BodyExit :=
  match file with
  | none =>
    match w.postOutcome used_channel text with
    | ApiOutcome.ok =>
        BodyExit.completed [RemoteOp.postMessage used_channel text] []
    | ApiOutcome.apiError d =>
        BodyExit.raised [RemoteOp.postMessage used_channel text] [] (PyExn.slackApi d)
    | ApiOutcome.exn m =>
        BodyExit.raised [RemoteOp.postMessage used_channel text] [] (PyExn.other m)
  | some f =>
    if w.fileExists f then
      match w.openFails f with
      | some m => BodyExit.raised [] [] (PyExn.other m)
      | none =>
        match w.uploadOutcome used_channel (basename f) (basename f) text with
        | ApiOutcome.ok =>
            BodyExit.completed
              [RemoteOp.uploadFile used_channel (basename f) (basename f) text] []
        | ApiOutcome.apiError d =>
            BodyExit.raised
              [RemoteOp.uploadFile used_channel (basename f) (basename f) text] []
              (PyExn.slackApi d)
        | ApiOutcome.exn m =>
            BodyExit.raised
              [RemoteOp.uploadFile used_channel (basename f) (basename f) text] []
              (PyExn.other m)
    else
      BodyExit.returnedEarly []
        ["Warning: Local file not found: " ++ f,
         "Current working directory: " ++ w.cwd]

/-- notify.py send_slack. The result is `Except.ok` exactly when the call
returns to its caller instead of raising: the disabled and no-channel
guards return early, `used_channel = channel or DEFAULT_CHANNEL` follows
Python truthiness, and the two `except` clauses (SlackApiError, then the
catch-all Exception) turn every exception of the body into a printed
diagnostic. -/
def send_slack (w : SendWorld) (text : String) (file : Option String)
    (channel : Option String) : Except PyExn SendTrace :=
  match w.client with
  | none =>
      Except.ok ⟨[], ["Slack functionality is disabled due to missing configuration."]⟩
  | some _ =>
    if channel.isNone && w.defaultChannel.isNone then
      Except.ok ⟨[],
        ["Error: No channel specified. Please provide a channel or set a default channel in the configuration."]⟩
    else
      let used_channel := if truthy channel then channel else w.defaultChannel
      match send_try w text file used_channel with
      | BodyExit.completed ops logs =>
          Except.ok ⟨ops, logs ++ ["Message sent successfully"]⟩
      | BodyExit.returnedEarly ops logs => Except.ok ⟨ops, logs⟩
      | BodyExit.raised ops logs (PyExn.slackApi d) =>
          Except.ok ⟨ops, logs ++ ["Error sending message: " ++ d]⟩
      | BodyExit.raised ops logs (PyExn.other m) =>
          Except.ok ⟨ops, logs ++ ["Unexpected error while sending message: " ++ m]⟩

/-- Round a rational to the nearest integer, ties to even: the rounding
CPython's fixed-point float formatting performs (exact for the inputs of
interest here, whose value is representable at two decimals). -/
def roundHalfEven (q : ℚ) : ℤ :=
  let f := Int.floor q
  if q - f < 1/2 then f
  else if (1/2 : ℚ) < q - f then f + 1
  else if f % 2 = 0 then f else f + 1

/-- Python's `f"{x:.2f}"` for a nonnegative value: two decimal places. -/
def twoDecimals (q : ℚ) : String :=
  let c : ℕ := (roundHalfEven (q * 100)).toNat
  toString (c / 100) ++ "." ++
    (if c % 100 < 10 then "0" ++ toString (c % 100) else toString (c % 100))

/-- One formatted component, `f"{n} day{'s' if n != 1 else ''}"` style:
the count, the unit (with its leading space), and a plural s except for
exact value 1. -/
def pluralizeInt (n : ℤ) (unit : String) : String :=
  toString n ++ unit ++ (if n ≠ 1 then "s" else "")

/-- The seconds component: two decimal places, pluralized except for the
exact value 1. -/
def secondsPart (s : ℚ) : String :=
  twoDecimals s ++ " second" ++ (if s ≠ 1 then "s" else "")

/-- `int(elapsed // 86400)` of format_duration. -/
def durationDays (elapsed : ℚ) : ℤ := Int.floor (elapsed / 86400)

/-- `elapsed %= 86400` of format_duration. -/
def durationRem1 (elapsed : ℚ) : ℚ := elapsed - 86400 * (durationDays elapsed : ℚ)

/-- `int(elapsed // 3600)` after the day remainder. -/
def durationHours (elapsed : ℚ) : ℤ := Int.floor (durationRem1 elapsed / 3600)

/-- `elapsed %= 3600` after the hours were taken. -/
def durationRem2 (elapsed : ℚ) : ℚ :=
  durationRem1 elapsed - 3600 * (durationHours elapsed : ℚ)

/-- `int(elapsed // 60)` after the hour remainder. -/
def durationMinutes (elapsed : ℚ) : ℤ := Int.floor (durationRem2 elapsed / 60)

/-- `seconds = elapsed % 60`, the fractional remainder. -/
def durationSeconds (elapsed : ℚ) : ℚ :=
  durationRem2 elapsed - 60 * (durationMinutes elapsed : ℚ)

/-- The parts assembly of format_duration: append each of days, hours,
minutes when positive, then the seconds component when positive `or not
parts`, and join with a comma and a space. -/
def format_parts (d h m : ℤ) (s : ℚ) : String :=
  let parts :=
    (if 0 < d then [pluralizeInt d " day"] else []) ++
    (if 0 < h then [pluralizeInt h " hour"] else []) ++
    (if 0 < m then [pluralizeInt m " minute"] else [])
  String.intercalate ", "
    (if 0 < s ∨ parts = [] then parts ++ [secondsPart s] else parts)

/-- notify.py format_duration: decompose the elapsed seconds and assemble
the parts. -/
def format_duration (elapsed : ℚ) : String :=
  format_parts (durationDays elapsed) (durationHours elapsed)
    (durationMinutes elapsed) (durationSeconds elapsed)

/-- Modelled from the spec's duration-formatting rule, for comparison with
format_duration: same decomposition by integer division with remainder;
emit only components with value > 0 in descending order, pluralized except
for exact value 1, seconds with two decimals; include seconds whenever
days, hours and minutes are all zero. -/
def format_duration_from_spec (elapsed : ℚ) : String :=
  let d := durationDays elapsed
  let h := durationHours elapsed
  let m := durationMinutes elapsed
  let s := durationSeconds elapsed
  String.intercalate ", "
    ((if 0 < d then [pluralizeInt d " day"] else []) ++
     (if 0 < h then [pluralizeInt h " hour"] else []) ++
     (if 0 < m then [pluralizeInt m " minute"] else []) ++
     (if 0 < s ∨ (d = 0 ∧ h = 0 ∧ m = 0) then [secondsPart s] else []))

/-- A Python exception observed by the slack_notify wrapper: its type name
and its message (`str(e)`). -/
structure PyError where
  typeName : String
  msg : String
deriving DecidableEq

/-- What the wrapped unit of work does when called: return a value or
raise an exception. -/
inductive WorkResult (α : Type) where
  | ok (v : α)
  | raised (e : PyError)
deriving DecidableEq

/-- The ambient state one call of the slack_notify wrapper reads: the
script name (`os.path.basename(sys.argv[0])` or `"unknown"`), the elapsed
wall-clock seconds between the two `time.time()` reads, and what
`traceback.format_exc()` renders in the failure handler. -/
structure NotifyWorld where
  scriptName : String
  elapsed : ℚ
  tracebackText : String

/-- The observable behavior of one call of the wrapped form: what it
returns or raises, the texts passed to send_slack, in order, and the lines
printed locally. -/
structure NotifyTrace (α : Type) where
  result : WorkResult α
  sends : List String
  printed : List String
deriving DecidableEq

/-- The success notification text of slack_notify. -/
def successMessage (scriptName funcName duration : String) : String :=
  "[" ++ scriptName ++ "] Function '" ++ funcName ++
    "' completed successfully in " ++ duration ++ "!"

/-- The failure notification text of slack_notify: duration, `str(e)` and
the traceback text. -/
def errorMessage (scriptName funcName duration msg tb : String) : String :=
  "[" ++ scriptName ++ "] Function '" ++ funcName ++
    "' encountered an error after " ++ duration ++ ":\n" ++ msg ++
    "\n\nTraceback:\n" ++ tb

/-- notify.py slack_notify: one call of the wrapper returned by the
decorator. On normal return of the work it sends the success notification
and returns the result unchanged; on an exception it builds the error
message, prints it, sends it, and re-raises the same exception. -/
def slack_notify_run (α : Type) (w : NotifyWorld) (funcName : String)
    (work : WorkResult α) : NotifyTrace α :=
  match work with
  | WorkResult.ok v =>
      ⟨WorkResult.ok v,
       [successMessage w.scriptName funcName (format_duration w.elapsed)], []⟩
  | WorkResult.raised e =>
      ⟨WorkResult.raised e,
       [errorMessage w.scriptName funcName (format_duration w.elapsed) e.msg
          w.tracebackText],
       [errorMessage w.scriptName funcName (format_duration w.elapsed) e.msg
          w.tracebackText]⟩

end Py2Slack

namespace Py2Slack

theorem fillKey_some (v : String) (p : Option String) :
    fillKey (some v) p = some v := rfl

theorem fillKey_none (p : Option String) : fillKey none p = p := rfl

/-- The `oauth_token` key after step 2 is the environment value when set,
else the dotenv source's value: when the key is missing the dotenv source
is necessarily consulted. -/
theorem fillKey_none_right (p : Option String) : fillKey p none = p := by
  cases p <;> rfl

theorem dotenvStage_oauth (w : ConfigWorld) :
    (dotenvStage w).oauth_token =
      fillKey (envStep w).oauth_token (load_from_dotenv_file w).oauth_token := by
  unfold dotenvStage dotenvConsulted missingAny
  cases ho : (envStep w).oauth_token with
  | none => simp [fillMissing, ho, fillKey]
  | some v =>
    cases hc : (envStep w).default_channel with
    | none => simp [fillMissing, ho, hc, fillKey]
    | some u =>
      cases he : w.envFileExists <;> simp [fillMissing, ho, hc, he, fillKey]

/-- The `default_channel` key after step 2 is the environment value when
set, else the dotenv source's value. -/
theorem dotenvStage_channel (w : ConfigWorld) :
    (dotenvStage w).default_channel =
      fillKey (envStep w).default_channel (load_from_dotenv_file w).default_channel := by
  unfold dotenvStage dotenvConsulted missingAny
  cases hc : (envStep w).default_channel with
  | none => simp [fillMissing, hc, fillKey]
  | some v =>
    cases ho : (envStep w).oauth_token with
    | none => simp [fillMissing, ho, hc, fillKey]
    | some u =>
      cases he : w.envFileExists <;> simp [fillMissing, ho, hc, he, fillKey]

/-- The `oauth_token` key of the final config is the step-2 value when
set, else what the JSON source contributes. -/
theorem load_oauth (w : ConfigWorld) :
    (load_slack_config w).oauth_token =
      fillKey (dotenvStage w).oauth_token (jsonView w).oauth_token := by
  unfold load_slack_config jsonConsulted missingAny jsonView
  cases hj : w.jsonRead with
  | parsed j =>
    cases ho : (dotenvStage w).oauth_token with
    | none => simp [ho, fillMissing, fillKey]
    | some v =>
      cases hc : (dotenvStage w).default_channel with
      | none => simp [ho, hc, fillMissing, fillKey]
      | some u =>
        cases he : w.configFileExists <;> simp [ho, hc, he, fillMissing, fillKey]
  | decodeError => simp [fillKey_none_right]
  | readError m => simp [fillKey_none_right]

/-- The `default_channel` key of the final config is the step-2 value when
set, else what the JSON source contributes. -/
theorem load_channel (w : ConfigWorld) :
    (load_slack_config w).default_channel =
      fillKey (dotenvStage w).default_channel (jsonView w).default_channel := by
  unfold load_slack_config jsonConsulted missingAny jsonView
  cases hj : w.jsonRead with
  | parsed j =>
    cases hc : (dotenvStage w).default_channel with
    | none => simp [hc, fillMissing, fillKey]
    | some v =>
      cases ho : (dotenvStage w).oauth_token with
      | none => simp [ho, hc, fillMissing, fillKey]
      | some u =>
        cases he : w.configFileExists <;> simp [ho, hc, he, fillMissing, fillKey]
  | decodeError => simp [fillKey_none_right]
  | readError m => simp [fillKey_none_right]

/-- C1. The configuration returned by load_slack_config takes each of the
two recognized keys from the highest-precedence source that defines it:
the environment (a truthy variable) wins over both files, the dotenv
source wins over the JSON source, and a key no source defines stays
absent. In particular, when the environment supplies only `oauth_token`,
the dotenv source supplies no `default_channel`, and the parsed JSON file
supplies both keys, the result keeps the environment token and takes only
`default_channel` from the JSON file. -/
theorem c1_config_precedence (w : ConfigWorld) :
    ((load_slack_config w).oauth_token =
      (if truthy w.envOauth then w.envOauth
       else if (load_from_dotenv_file w).oauth_token.isSome then
         (load_from_dotenv_file w).oauth_token
       else (jsonView w).oauth_token))
    ∧ ((load_slack_config w).default_channel =
      (if truthy w.envChannel then w.envChannel
       else if (load_from_dotenv_file w).default_channel.isSome then
         (load_from_dotenv_file w).default_channel
       else (jsonView w).default_channel))
    ∧ (∀ j : SlackConfig, ∀ jt jc : String,
        truthy w.envOauth = true → truthy w.envChannel = false →
        (load_from_dotenv_file w).default_channel = none →
        w.jsonRead = JsonResult.parsed j →
        j.oauth_token = some jt → j.default_channel = some jc →
        load_slack_config w = ⟨w.envOauth, some jc⟩) := by
  have hko : (load_slack_config w).oauth_token =
      fillKey (fillKey (envStep w).oauth_token (load_from_dotenv_file w).oauth_token)
        (jsonView w).oauth_token := by
    rw [load_oauth, dotenvStage_oauth]
  have hkc : (load_slack_config w).default_channel =
      fillKey (fillKey (envStep w).default_channel
          (load_from_dotenv_file w).default_channel)
        (jsonView w).default_channel := by
    rw [load_channel, dotenvStage_channel]
  refine ⟨?_, ?_, ?_⟩
  · rw [hko]
    unfold envStep
    by_cases he : truthy w.envOauth
    · cases hv : w.envOauth with
      | none => rw [hv] at he; simp [truthy] at he
      | some v => rw [hv] at he; simp [he, fillKey]
    · simp only [he, if_false, Bool.not_eq_true]
      cases hd : (load_from_dotenv_file w).oauth_token with
      | none => simp [he, fillKey]
      | some v => simp [he, fillKey]
  · rw [hkc]
    unfold envStep
    by_cases he : truthy w.envChannel
    · cases hv : w.envChannel with
      | none => rw [hv] at he; simp [truthy] at he
      | some v => rw [hv] at he; simp [he, fillKey]
    · simp only [he, if_false, Bool.not_eq_true]
      cases hd : (load_from_dotenv_file w).default_channel with
      | none => simp [he, fillKey]
      | some v => simp [he, fillKey]
  · intro j jt jc hto htc hdc hjr hjo hjc
    have hjv : jsonView w = j := by unfold jsonView; rw [hjr]
    have h1 : (load_slack_config w).oauth_token = w.envOauth := by
      rw [hko]
      unfold envStep
      cases hv : w.envOauth with
      | none => rw [hv] at hto; simp [truthy] at hto
      | some v => rw [hv] at hto; simp [hto, fillKey]
    have h2 : (load_slack_config w).default_channel = some jc := by
      rw [hkc, hjv]
      unfold envStep
      simp [htc, hdc, fillKey, hjc]
    cases hfin : load_slack_config w with
    | mk a b =>
      rw [hfin] at h1 h2
      simp only at h1 h2
      rw [h1, h2]

/-- A world in which the environment supplies both keys (so nothing is
missing after step 1) and a `.env` file exists on disk. -/
def c6World : ConfigWorld :=
  ⟨some "tok", some "chan", true, true, false, none, none, false,
   JsonResult.decodeError⟩

/-- C6, counterexample. The dotenv source is not consulted only when keys
are missing: in `c6World` the environment already supplied both recognized
keys, yet load_slack_config still calls load_from_dotenv_file because the
`.env` file exists (`if missing or os.path.exists(ENV_FILE)`). -/
theorem c6_counterexample :
    dotenvConsulted c6World = true ∧ missingAny (envStep c6World) = false := by
  constructor <;> rfl

/-- C6, amended: the dotenv source is consulted when still-missing keys
remain or the `.env` file exists (and likewise the JSON source, for
`slack_config.json`); both file sources fill only keys still missing when
they are consulted, never overwriting a key set by a higher-precedence
source. -/
theorem c6_fill_only_if_missing (w : ConfigWorld) :
    (dotenvConsulted w = (missingAny (envStep w) || w.envFileExists))
    ∧ (jsonConsulted w = (missingAny (dotenvStage w) || w.configFileExists))
    ∧ (∀ v, (envStep w).oauth_token = some v →
        (load_slack_config w).oauth_token = some v)
    ∧ (∀ v, (envStep w).default_channel = some v →
        (load_slack_config w).default_channel = some v)
    ∧ (∀ v, (dotenvStage w).oauth_token = some v →
        (load_slack_config w).oauth_token = some v)
    ∧ (∀ v, (dotenvStage w).default_channel = some v →
        (load_slack_config w).default_channel = some v) := by
  refine ⟨rfl, rfl, ?_, ?_, ?_, ?_⟩
  · intro v hv
    rw [load_oauth, dotenvStage_oauth, hv, fillKey_some, fillKey_some]
  · intro v hv
    rw [load_channel, dotenvStage_channel, hv, fillKey_some, fillKey_some]
  · intro v hv
    rw [load_oauth, hv, fillKey_some]
  · intro v hv
    rw [load_channel, hv, fillKey_some]

/-- Witness for C6's amended theorem: in `c6World` the environment set
both keys, and the final configuration still holds exactly those values
after both file sources were consulted. -/
theorem c6_fill_only_if_missing_witness :
    (load_slack_config c6World).oauth_token = some "tok" ∧
      (load_slack_config c6World).default_channel = some "chan" :=
  ⟨(c6_fill_only_if_missing c6World).2.2.1 "tok" rfl,
   (c6_fill_only_if_missing c6World).2.2.2.1 "chan" rfl⟩

/-- Witness for C1: a concrete world in which the environment supplies
`oauth_token`, the dotenv source nothing, and the JSON file both keys. -/
def c1World : ConfigWorld :=
  ⟨some "envtok", none, false, false, false, none, none, true,
   JsonResult.parsed ⟨some "jsontok", some "jsonchan"⟩⟩

/-- C1 at `c1World`: the environment token is kept and only the channel is
taken from the JSON file. -/
theorem c1_config_precedence_witness :
    load_slack_config c1World = ⟨some "envtok", some "jsonchan"⟩ :=
  (c1_config_precedence c1World).2.2 ⟨some "jsontok", some "jsonchan"⟩
    "jsontok" "jsonchan" rfl rfl rfl rfl rfl rfl

/-- send_slack invokes the remote API and returns normally whatever the
remote outcome was: helper case analysis on the body of the `try`. -/
theorem send_try_cases (w : SendWorld) (text : String) (file : Option String)
    (used : Option String) :
    (∃ ops logs, send_try w text file used = BodyExit.completed ops logs) ∨
    (∃ ops logs, send_try w text file used = BodyExit.returnedEarly ops logs) ∨
    (∃ ops logs e, send_try w text file used = BodyExit.raised ops logs e) := by
  unfold send_try
  cases file with
  | none =>
    cases w.postOutcome used text with
    | ok => exact Or.inl ⟨_, _, rfl⟩
    | apiError d => exact Or.inr (Or.inr ⟨_, _, _, rfl⟩)
    | exn m => exact Or.inr (Or.inr ⟨_, _, _, rfl⟩)
  | some f =>
    by_cases hf : w.fileExists f = true
    · simp only [hf, if_true]
      cases w.openFails f with
      | some m => exact Or.inr (Or.inr ⟨_, _, _, rfl⟩)
      | none =>
        cases w.uploadOutcome used (basename f) (basename f) text with
        | ok => exact Or.inl ⟨_, _, rfl⟩
        | apiError d => exact Or.inr (Or.inr ⟨_, _, _, rfl⟩)
        | exn m => exact Or.inr (Or.inr ⟨_, _, _, rfl⟩)
    · simp only [Bool.not_eq_true] at hf
      simp only [hf, Bool.false_eq_true, if_false]
      exact Or.inr (Or.inl ⟨_, _, rfl⟩)

/-- C4. send_slack never raises: for every combination of arguments and
every outcome of the remote calls and filesystem checks, the call returns
normally (an `Except.ok` trace); every failure path only contributes
diagnostic log lines. -/
theorem c4_send_never_raises (w : SendWorld) (text : String)
    (file channel : Option String) :
    ∃ tr : SendTrace, send_slack w text file channel = Except.ok tr := by
  unfold send_slack
  cases w.client with
  | none => exact ⟨_, rfl⟩
  | some cl =>
    by_cases hg : (channel.isNone && w.defaultChannel.isNone) = true
    · simp only [hg, if_true]
      exact ⟨_, rfl⟩
    · simp only [Bool.not_eq_true] at hg
      simp only [hg, Bool.false_eq_true, if_false]
      rcases send_try_cases w text file
          (if truthy channel then channel else w.defaultChannel) with
        ⟨ops, logs, h⟩ | ⟨ops, logs, h⟩ | ⟨ops, logs, e, h⟩
      · rw [h]; exact ⟨_, rfl⟩
      · rw [h]; exact ⟨_, rfl⟩
      · rw [h]; cases e with
        | slackApi d => exact ⟨_, rfl⟩
        | other m => exact ⟨_, rfl⟩

/-- The no-channel diagnostic of send_slack. -/
def noChannelLog : String :=
  "Error: No channel specified. Please provide a channel or set a default channel in the configuration."

/-- C5, counterexample. With the client ready, no configured default and
the explicit channel equal to the empty string, send_slack does not use
the explicit channel: the guard (which tests `channel is None`) passes,
`channel or DEFAULT_CHANNEL` discards the empty string, and the remote
post is attempted with channel None rather than the explicit empty
string. -/
theorem c5_counterexample :
    send_slack
        ⟨some ⟨"tok"⟩, none, fun _ => false, "/work", fun _ => none,
         fun _ _ => ApiOutcome.ok, fun _ _ _ _ => ApiOutcome.ok⟩
        "hi" none (some "") =
      Except.ok ⟨[RemoteOp.postMessage none "hi"], ["Message sent successfully"]⟩
    ∧ RemoteOp.postMessage (none : Option String) "hi" ≠
        RemoteOp.postMessage (some "") "hi" := by
  constructor
  · rfl
  · decide

/-- C5, amended. With the client ready and no configured default: an
explicit non-empty channel argument makes the send proceed using exactly
that channel; with no explicit channel at all the send performs no remote
call, prints the no-channel diagnostic, and returns normally. -/
theorem c5_channel_selection (w : SendWorld) (cl : WebClient) (text : String)
    (hcl : w.client = some cl) (hdef : w.defaultChannel = none) :
    (∀ c : String, c ≠ "" →
      ∃ tr : SendTrace, send_slack w text none (some c) = Except.ok tr ∧
        tr.remote = [RemoteOp.postMessage (some c) text])
    ∧ (∀ file : Option String,
        send_slack w text file none = Except.ok ⟨[], [noChannelLog]⟩) := by
  constructor
  · intro c hc
    have hne : (some c : Option String).isNone = false := rfl
    have htr : truthy (some c) = true := by
      have : c.isEmpty = false := by
        rcases Bool.eq_false_or_eq_true c.isEmpty with h | h
        · exact absurd ((String.isEmpty_iff c).mp h) hc
        · exact h
      simp [truthy, this]
    unfold send_slack
    rw [hcl]
    simp only [hne, Bool.false_and, Bool.false_eq_true, if_false, htr, if_true]
    unfold send_try
    cases w.postOutcome (some c) text with
    | ok => exact ⟨_, rfl, rfl⟩
    | apiError d => exact ⟨_, rfl, rfl⟩
    | exn m => exact ⟨_, rfl, rfl⟩
  · intro file
    unfold send_slack
    rw [hcl, hdef]
    rfl

/-- A ready-client world with no configured default channel. -/
def sendWorldNoDefault : SendWorld :=
  ⟨some ⟨"tok"⟩, none, fun _ => false, "/work", fun _ => none,
   fun _ _ => ApiOutcome.ok, fun _ _ _ _ => ApiOutcome.ok⟩

/-- Witness for C5's amended theorem at a concrete world: the explicit
channel "C042" is used, and with no channel at all the call is a logged
no-op. -/
theorem c5_channel_selection_witness :
    (∃ tr : SendTrace,
        send_slack sendWorldNoDefault "m" none (some "C042") = Except.ok tr ∧
          tr.remote = [RemoteOp.postMessage (some "C042") "m"])
    ∧ send_slack sendWorldNoDefault "m" none none =
        Except.ok ⟨[], [noChannelLog]⟩ := by
  have h := c5_channel_selection sendWorldNoDefault ⟨"tok"⟩ "m" rfl rfl
  exact ⟨h.1 "C042" (by decide), h.2 none⟩

/-- C8. With the client ready and a channel selectable, a send with a file
path that does not exist performs no remote operation: it prints the
file-not-found warning and the current working directory, and returns
normally. -/
theorem c8_missing_file (w : SendWorld) (text f : String)
    (channel : Option String) (cl : WebClient)
    (hcl : w.client = some cl)
    (hch : (channel.isNone && w.defaultChannel.isNone) = false)
    (hf : w.fileExists f = false) :
    send_slack w text (some f) channel =
      Except.ok ⟨[], ["Warning: Local file not found: " ++ f,
                      "Current working directory: " ++ w.cwd]⟩ := by
  unfold send_slack
  rw [hcl]
  simp only [hch, Bool.false_eq_true, if_false]
  unfold send_try
  simp only [hf, Bool.false_eq_true, if_false]

/-- A ready-client world with a configured default channel "D1" and an
empty filesystem. -/
def sendWorldDefault : SendWorld :=
  ⟨some ⟨"tok"⟩, some "D1", fun _ => false, "/work", fun _ => none,
   fun _ _ => ApiOutcome.ok, fun _ _ _ _ => ApiOutcome.ok⟩

/-- Witness for C8 at a concrete world: the missing path produces the two
diagnostics and no remote call. -/
theorem c8_missing_file_witness :
    send_slack sendWorldDefault "t" (some "missing/path.png") none =
      Except.ok ⟨[], ["Warning: Local file not found: " ++ "missing/path.png",
                      "Current working directory: " ++ "/work"]⟩ :=
  c8_missing_file sendWorldDefault "t" "missing/path.png" none ⟨"tok"⟩ rfl rfl rfl

/-- C10. Channel selection is by truthiness, not presence: with an
explicit empty-string channel, a configured default wins (the empty
argument is discarded), and with no configured default the no-channel
guard (which only tests for None) passes and the remote post is attempted
with channel None. -/
theorem c10_channel_truthiness (w : SendWorld) (cl : WebClient) (text : String)
    (hcl : w.client = some cl) :
    (∀ d : String, w.defaultChannel = some d →
      ∃ tr : SendTrace, send_slack w text none (some "") = Except.ok tr ∧
        tr.remote = [RemoteOp.postMessage (some d) text])
    ∧ (w.defaultChannel = none →
      ∃ tr : SendTrace, send_slack w text none (some "") = Except.ok tr ∧
        tr.remote = [RemoteOp.postMessage none text]) := by
  constructor
  · intro d hd
    unfold send_slack
    rw [hcl, hd]
    simp only [Option.isNone_none, Option.isNone_some, Bool.false_and,
      Bool.and_false, Bool.false_eq_true, if_false]
    unfold send_try
    have : truthy (some "") = false := rfl
    rw [this]
    simp only [Bool.false_eq_true, if_false, hd]
    cases w.postOutcome (some d) text with
    | ok => exact ⟨_, rfl, rfl⟩
    | apiError d2 => exact ⟨_, rfl, rfl⟩
    | exn m => exact ⟨_, rfl, rfl⟩
  · intro hd
    unfold send_slack
    rw [hcl, hd]
    simp only [Option.isNone_none, Option.isNone_some, Bool.false_and,
      Bool.and_false, Bool.false_eq_true, if_false]
    unfold send_try
    have : truthy (some "") = false := rfl
    rw [this]
    simp only [Bool.false_eq_true, if_false, hd]
    cases w.postOutcome none text with
    | ok => exact ⟨_, rfl, rfl⟩
    | apiError d2 => exact ⟨_, rfl, rfl⟩
    | exn m => exact ⟨_, rfl, rfl⟩

/-- Witness for C10 at concrete worlds: with default "D1" the empty
explicit channel sends to "D1"; with no default the post is attempted with
channel None. -/
theorem c10_channel_truthiness_witness :
    (∃ tr : SendTrace,
        send_slack sendWorldDefault "x" none (some "") = Except.ok tr ∧
          tr.remote = [RemoteOp.postMessage (some "D1") "x"])
    ∧ (∃ tr : SendTrace,
        send_slack sendWorldNoDefault "x" none (some "") = Except.ok tr ∧
          tr.remote = [RemoteOp.postMessage none "x"]) :=
  ⟨(c10_channel_truthiness sendWorldDefault ⟨"tok"⟩ "x" rfl).1 "D1" rfl,
   (c10_channel_truthiness sendWorldNoDefault ⟨"tok"⟩ "x" rfl).2 rfl⟩

/-- C7. initialize_slack_client never prevents startup: when no source
supplies `oauth_token` it returns the disabled state (None client) without
attempting the remote liveness check; and whenever the token was found but
the liveness check does not return normally, it returns the disabled state
with a diagnostic instead of propagating the failure. -/
theorem c7_init_disabled (w : InitWorld) :
    ((truthy w.cfg.envOauth = false →
      (load_from_dotenv_file w.cfg).oauth_token = none →
      (jsonView w.cfg).oauth_token = none →
      (initialize_slack_client w).client = none ∧
        (initialize_slack_client w).remoteAttempted = false))
    ∧ (∀ t : String, w.sdkImported = true →
        (load_slack_config w.cfg).oauth_token = some t → t.isEmpty = false →
        w.authTest t ≠ ApiOutcome.ok →
        (initialize_slack_client w).client = none ∧
          (initialize_slack_client w).default_channel = none ∧
          (initialize_slack_client w).remoteAttempted = true ∧
          ∃ d : String, (initialize_slack_client w).logs =
            ["Error initializing Slack client: " ++ d]) := by
  constructor
  · intro henv hdot hjson
    have hload : (load_slack_config w.cfg).oauth_token = none := by
      rw [load_oauth, dotenvStage_oauth, hdot, hjson, fillKey_none_right]
      unfold envStep
      simp [henv, fillKey]
    unfold initialize_slack_client
    cases hs : w.sdkImported with
    | false => exact ⟨rfl, rfl⟩
    | true =>
      simp only [if_true]
      rw [hload]
      exact ⟨rfl, rfl⟩
  · intro t hs hload hne hfail
    unfold initialize_slack_client
    rw [hs]
    simp only [if_true]
    rw [hload]
    simp only [hne, Bool.false_eq_true, if_false]
    cases ha : w.authTest t with
    | ok => exact absurd ha hfail
    | apiError d => exact ⟨rfl, rfl, rfl, d, rfl⟩
    | exn m => exact ⟨rfl, rfl, rfl, m, rfl⟩

/-- A world in which no source supplies any configuration. -/
def initWorldEmpty : InitWorld :=
  ⟨⟨none, none, false, false, false, none, none, false,
    JsonResult.readError "missing"⟩, true, fun _ => ApiOutcome.ok⟩

/-- A world in which the environment supplies a token but the liveness
check reports an invalid credential. -/
def initWorldBadToken : InitWorld :=
  ⟨⟨some "tok", none, false, false, false, none, none, false,
    JsonResult.readError "missing"⟩, true,
   fun _ => ApiOutcome.apiError "invalid_auth"⟩

/-- Witness for C7 at concrete worlds: with no credential the client is
disabled with no remote call; with a failing liveness check it is disabled
after the attempted check, with the diagnostic line. -/
theorem c7_init_disabled_witness :
    ((initialize_slack_client initWorldEmpty).client = none ∧
      (initialize_slack_client initWorldEmpty).remoteAttempted = false)
    ∧ ((initialize_slack_client initWorldBadToken).client = none ∧
        (initialize_slack_client initWorldBadToken).default_channel = none ∧
        (initialize_slack_client initWorldBadToken).remoteAttempted = true ∧
        ∃ d : String, (initialize_slack_client initWorldBadToken).logs =
          ["Error initializing Slack client: " ++ d]) := by
  constructor
  · exact (c7_init_disabled initWorldEmpty).1 rfl rfl rfl
  · exact (c7_init_disabled initWorldBadToken).2 "tok" rfl rfl rfl (by decide)

/-- C2. When the wrapped unit of work raises, the wrapper re-raises the
same exception (unchanged type and message) after sending exactly one
failure notification whose text contains the formatted duration and the
exception message (`str(e)`). -/
theorem c2_wrap_failure (α : Type) (w : NotifyWorld) (funcName : String)
    (e : PyError) :
    (slack_notify_run α w funcName (WorkResult.raised e)).result =
        WorkResult.raised e
    ∧ (slack_notify_run α w funcName (WorkResult.raised e)).sends =
        [errorMessage w.scriptName funcName (format_duration w.elapsed) e.msg
          w.tracebackText]
    ∧ (∃ a b : String,
        errorMessage w.scriptName funcName (format_duration w.elapsed) e.msg
            w.tracebackText =
          a ++ (format_duration w.elapsed ++ b))
    ∧ (∃ a b : String,
        errorMessage w.scriptName funcName (format_duration w.elapsed) e.msg
            w.tracebackText =
          a ++ (e.msg ++ b)) := by
  refine ⟨rfl, rfl, ?_, ?_⟩
  · refine ⟨"[" ++ w.scriptName ++ "] Function '" ++ funcName ++
      "' encountered an error after ",
      ":\n" ++ e.msg ++ "\n\nTraceback:\n" ++ w.tracebackText, ?_⟩
    simp only [errorMessage, String.append_assoc]
  · refine ⟨"[" ++ w.scriptName ++ "] Function '" ++ funcName ++
      "' encountered an error after " ++ format_duration w.elapsed ++ ":\n",
      "\n\nTraceback:\n" ++ w.tracebackText, ?_⟩
    simp only [errorMessage, String.append_assoc]

/-- C9. When the wrapped unit of work returns normally, the wrapper
returns the result unchanged and sends exactly one success notification of
the documented form; in particular a work returning 42 yields 42. -/
theorem c9_wrap_success (α : Type) (w : NotifyWorld) (funcName : String)
    (v : α) :
    slack_notify_run α w funcName (WorkResult.ok v) =
      ⟨WorkResult.ok v,
       ["[" ++ w.scriptName ++ "] Function '" ++ funcName ++
          "' completed successfully in " ++ format_duration w.elapsed ++ "!"],
       []⟩
    ∧ (slack_notify_run ℕ ⟨"script.py", w.elapsed, ""⟩ "f"
        (WorkResult.ok 42)).result = WorkResult.ok 42 := by
  constructor
  · unfold slack_notify_run successMessage
    rfl
  · rfl

theorem roundHalfEven_eq_int (q : ℚ) (n : ℤ) (h : q = (n : ℚ)) :
    roundHalfEven q = n := by
  subst h
  unfold roundHalfEven
  norm_num

theorem twoDecimals_eq (q : ℚ) (c : ℕ) (h : q * 100 = (c : ℚ)) :
    twoDecimals q =
      toString (c / 100) ++ "." ++
        (if c % 100 < 10 then "0" ++ toString (c % 100)
         else toString (c % 100)) := by
  unfold twoDecimals
  rw [roundHalfEven_eq_int (q * 100) (c : ℤ) (by exact_mod_cast h)]
  rw [Int.toNat_natCast]

theorem durationDays_nonneg (q : ℚ) (hq : 0 ≤ q) : 0 ≤ durationDays q :=
  Int.floor_nonneg.mpr (div_nonneg hq (by norm_num))

theorem durationRem1_nonneg (q : ℚ) (_hq : 0 ≤ q) : 0 ≤ durationRem1 q := by
  have h := Int.sub_floor_div_mul_nonneg q (show (0:ℚ) < 86400 by norm_num)
  unfold durationRem1 durationDays
  linarith

theorem durationHours_nonneg (q : ℚ) (hq : 0 ≤ q) : 0 ≤ durationHours q :=
  Int.floor_nonneg.mpr (div_nonneg (durationRem1_nonneg q hq) (by norm_num))

theorem durationRem2_nonneg (q : ℚ) (_hq : 0 ≤ q) : 0 ≤ durationRem2 q := by
  have h := Int.sub_floor_div_mul_nonneg (durationRem1 q)
    (show (0:ℚ) < 3600 by norm_num)
  unfold durationRem2 durationHours
  linarith

theorem durationMinutes_nonneg (q : ℚ) (hq : 0 ≤ q) : 0 ≤ durationMinutes q :=
  Int.floor_nonneg.mpr (div_nonneg (durationRem2_nonneg q hq) (by norm_num))

/-- The parts assembly of the code agrees with the parts assembly the spec
describes whenever the three integer components are nonnegative: `or not
parts` is the same as all of days, hours and minutes being zero. -/
theorem format_parts_agree (d h m : ℤ) (s : ℚ)
    (hd : 0 ≤ d) (hh : 0 ≤ h) (hm : 0 ≤ m) :
    format_parts d h m s =
      String.intercalate ", "
        ((if 0 < d then [pluralizeInt d " day"] else []) ++
         (if 0 < h then [pluralizeInt h " hour"] else []) ++
         (if 0 < m then [pluralizeInt m " minute"] else []) ++
         (if 0 < s ∨ (d = 0 ∧ h = 0 ∧ m = 0) then [secondsPart s] else [])) := by
  unfold format_parts
  by_cases h1 : 0 < d <;> by_cases h2 : 0 < h <;> by_cases h3 : 0 < m <;>
    by_cases hs : 0 < s
  all_goals
    first
    | (simp [h1, h2, h3, hs, show ¬(d = 0 ∧ h = 0 ∧ m = 0) by omega]; done)
    | simp [h1, h2, h3, hs, show d = 0 by omega, show h = 0 by omega,
        show m = 0 by omega]

theorem format_duration_zero : format_duration 0 = "0.00 seconds" := by
  have hd : durationDays 0 = 0 := by unfold durationDays; norm_num
  have hr1 : durationRem1 0 = 0 := by unfold durationRem1; rw [hd]; norm_num
  have hh : durationHours 0 = 0 := by unfold durationHours; rw [hr1]; norm_num
  have hr2 : durationRem2 0 = 0 := by unfold durationRem2; rw [hr1, hh]; norm_num
  have hm : durationMinutes 0 = 0 := by unfold durationMinutes; rw [hr2]; norm_num
  have hs : durationSeconds 0 = 0 := by
    unfold durationSeconds; rw [hr2, hm]; norm_num
  have h2 : twoDecimals 0 = "0.00" := by
    rw [twoDecimals_eq 0 0 (by norm_num)]
    rfl
  unfold format_duration
  rw [hd, hh, hm, hs]
  unfold format_parts secondsPart pluralizeInt
  rw [h2]
  norm_num
  rfl

theorem format_duration_65 : format_duration 65 = "1 minute, 5.00 seconds" := by
  have hd : durationDays 65 = 0 := by unfold durationDays; norm_num
  have hr1 : durationRem1 65 = 65 := by unfold durationRem1; rw [hd]; norm_num
  have hh : durationHours 65 = 0 := by unfold durationHours; rw [hr1]; norm_num
  have hr2 : durationRem2 65 = 65 := by
    unfold durationRem2; rw [hr1, hh]; norm_num
  have hm : durationMinutes 65 = 1 := by
    unfold durationMinutes; rw [hr2]; norm_num
  have hs : durationSeconds 65 = 5 := by
    unfold durationSeconds; rw [hr2, hm]; norm_num
  have h2 : twoDecimals 5 = "5.00" := by
    rw [twoDecimals_eq 5 500 (by norm_num)]
    rfl
  unfold format_duration
  rw [hd, hh, hm, hs]
  unfold format_parts secondsPart pluralizeInt
  rw [h2]
  norm_num
  rfl

theorem format_duration_90061_5 :
    format_duration (90061.5 : ℚ) = "1 day, 1 hour, 1 minute, 1.50 seconds" := by
  have hd : durationDays (90061.5 : ℚ) = 1 := by unfold durationDays; norm_num
  have hr1 : durationRem1 (90061.5 : ℚ) = 3661.5 := by
    unfold durationRem1; rw [hd]; norm_num
  have hh : durationHours (90061.5 : ℚ) = 1 := by
    unfold durationHours; rw [hr1]; norm_num
  have hr2 : durationRem2 (90061.5 : ℚ) = 61.5 := by
    unfold durationRem2; rw [hr1, hh]; norm_num
  have hm : durationMinutes (90061.5 : ℚ) = 1 := by
    unfold durationMinutes; rw [hr2]; norm_num
  have hs : durationSeconds (90061.5 : ℚ) = 1.5 := by
    unfold durationSeconds; rw [hr2, hm]; norm_num
  have h2 : twoDecimals (1.5 : ℚ) = "1.50" := by
    rw [twoDecimals_eq (1.5 : ℚ) 150 (by norm_num)]
    rfl
  unfold format_duration
  rw [hd, hh, hm, hs]
  unfold format_parts secondsPart pluralizeInt
  rw [h2]
  norm_num
  rfl

/-- C3. format_duration decomposes nonnegative elapsed seconds by integer
division with remainder and emits only positive components in descending
order, comma-and-space separated, pluralized except for exact value 1,
seconds to two decimals and always present when days, hours and minutes
are all zero: it agrees with the rule as the spec states it
(format_duration_from_spec) on every nonnegative input, and produces the
three documented example strings. -/
theorem c3_format_duration :
    (∀ q : ℚ, 0 ≤ q → format_duration q = format_duration_from_spec q)
    ∧ format_duration 0 = "0.00 seconds"
    ∧ format_duration 65 = "1 minute, 5.00 seconds"
    ∧ format_duration (90061.5 : ℚ) = "1 day, 1 hour, 1 minute, 1.50 seconds" := by
  refine ⟨?_, format_duration_zero, format_duration_65, format_duration_90061_5⟩
  intro q hq
  unfold format_duration format_duration_from_spec
  exact format_parts_agree (durationDays q) (durationHours q)
    (durationMinutes q) (durationSeconds q) (durationDays_nonneg q hq)
    (durationHours_nonneg q hq) (durationMinutes_nonneg q hq)

/-- Witness for C3 at a concrete input with a hypothesis discharged: the
code formatting and the spec formatting agree at 65 seconds. -/
theorem c3_format_duration_witness :
    format_duration 65 = format_duration_from_spec 65 :=
  c3_format_duration.1 65 (by norm_num)

end Py2Slack
